import Mathlib

/-!
# Verification of the Gemini API key batch probe (`gemini.py`)

A shallow embedding of the core of `gemini.py`: the per-key retry/backoff
loop `test_key`, the dispatcher's result accumulation (`worker` /
`main_async`), the success-set projection and the summary counters.

Modelling choices:
* One HTTP round trip is an `AttemptOutcome`: either a completed response
  (status code and body text) or one of the three exception classes the
  code catches (`asyncio.TimeoutError`, `aiohttp.ClientError`, any other
  `Exception`).  The network is abstracted as an oracle
  `Nat → AttemptOutcome` giving the outcome of each (1-based) attempt.
* Python string slicing `text[:500]` slices by characters; it is embedded
  as `String.take`.
* The backoff delay is an exact binary float (1.0, 2.0, ...); it is
  embedded as a rational number.
* The semaphore-gated dispatcher is embedded as a small-step transition
  system over the multiset of task phases.
-/

/-- The closed result-category enumeration of the script
(`status` field of the result dict). -/
inductive Status where
  | valid
  | invalid
  | model_not_found
  | error
deriving DecidableEq, Repr

/-- Outcome of a single HTTP round trip attempt, as distinguished by the
`try/except` structure of `test_key`: a completed response carries the
status code and body text; the three exception arms are
`asyncio.TimeoutError`, `aiohttp.ClientError` (with `str(e)`), and any
other `Exception` (with `str(e)`). -/
inductive AttemptOutcome where
  | response (code : Nat) (body : String)
  | timeout
  | clientError (msg : String)
  | unexpected (msg : String)
deriving DecidableEq, Repr

/-- The constant `MAX_RETRIES = 3` from the source. -/
def MAX_RETRIES : Nat := 3

/-- The constant `INITIAL_BACKOFF = 1.0` from the source (exact binary value,
embedded as a rational). -/
def INITIAL_BACKOFF : ℚ := 1

/-- The constant `BACKOFF_FACTOR = 2.0` from the source (exact binary value,
embedded as a rational). -/
def BACKOFF_FACTOR : ℚ := 2

/-- The result dict built by `test_key`:
`{"key": ..., "status": ..., "http_status": ..., "detail": ...}`.
`http_status` is an `Int` because the code uses the sentinels `-1`
(no HTTP response) and `-2` (unexpected exception). -/
structure Result where
  key : String
  status : Status
  http_status : Int
  detail : String
deriving DecidableEq, Repr

/-- An execution trace of `test_key` on one credential: the returned
result, the list of backoff delays slept (in order), and the number of
attempts performed. -/
structure ProbeTrace where
  result : Result
  delays : List ℚ
  attempts : Nat
deriving DecidableEq, Repr

/-- The body of `test_key`'s `for attempt in range(1, MAX_RETRIES + 1)`
loop, from attempt number `attempt` onwards with current backoff delay
`backoff`.  `oracle n` is the outcome of the `n`-th (1-based) attempt.
Each branch mirrors one `return`/`continue` of the source:
* `200 <= code < 300` → `valid` with the fixed literal `"OK"`;
* `code in (401, 403)` → `invalid` with `text[:500]`;
* `code == 404` → `model_not_found` with `text[:500]`;
* `code == 429 and attempt < MAX_RETRIES` → sleep `backoff`, double it,
  continue;
* any other completed response → `error` with `text[:500]`;
* `TimeoutError` → retry while `attempt < MAX_RETRIES`, else `error`
  with status `-1` and detail `"Timeout"`;
* `ClientError` → retry while `attempt < MAX_RETRIES`, else `error`
  with status `-1` and detail `"ClientError: " ++ str(e)[:300]`;
* any other exception → immediately `error` with status `-2` and detail
  `"Unexpected: " ++ str(e)[:300]`. -/
def test_key_go (key : String) (oracle : Nat → AttemptOutcome)
    (attempt : Nat) (backoff : ℚ) : ProbeTrace :=
  match oracle attempt with
  | .response code body =>
    if 200 ≤ code ∧ code < 300 then
      ⟨⟨key, .valid, code, "OK"⟩, [], 1⟩
    else if code = 401 ∨ code = 403 then
      ⟨⟨key, .invalid, code, body.take 500⟩, [], 1⟩
    else if code = 404 then
      ⟨⟨key, .model_not_found, code, body.take 500⟩, [], 1⟩
    else if h : code = 429 ∧ attempt < MAX_RETRIES then
      let t := test_key_go key oracle (attempt + 1) (backoff * BACKOFF_FACTOR)
      ⟨t.result, backoff :: t.delays, t.attempts + 1⟩
    else
      ⟨⟨key, .error, code, body.take 500⟩, [], 1⟩
  | .timeout =>
    if h : attempt < MAX_RETRIES then
      let t := test_key_go key oracle (attempt + 1) (backoff * BACKOFF_FACTOR)
      ⟨t.result, backoff :: t.delays, t.attempts + 1⟩
    else
      ⟨⟨key, .error, -1, "Timeout"⟩, [], 1⟩
  | .clientError msg =>
    if h : attempt < MAX_RETRIES then
      let t := test_key_go key oracle (attempt + 1) (backoff * BACKOFF_FACTOR)
      ⟨t.result, backoff :: t.delays, t.attempts + 1⟩
    else
      ⟨⟨key, .error, -1, "ClientError: " ++ msg.take 300⟩, [], 1⟩
  | .unexpected msg =>
    ⟨⟨key, .error, -2, "Unexpected: " ++ msg.take 300⟩, [], 1⟩
termination_by MAX_RETRIES - attempt
decreasing_by
  all_goals omega

/-- The whole of `test_key`: run the retry loop from attempt 1 with
`backoff = INITIAL_BACKOFF`. -/
def test_key (key : String) (oracle : Nat → AttemptOutcome) : ProbeTrace :=
  test_key_go key oracle 1 INITIAL_BACKOFF

/-- An attempt outcome is retryable exactly when it is HTTP 429, a
timeout, or a client error (the three arms of `test_key` that contain a
`continue`). -/
def retryable : AttemptOutcome → Bool
  | .response code _ => code == 429
  | .timeout => true
  | .clientError _ => true
  | .unexpected _ => false

/-- Python's `s[:n]` never changes a string already at most `n`
characters long. -/
theorem string_take_of_length_le (s : String) (n : Nat) (h : s.length ≤ n) :
    s.take n = s := by
  rw [String.take_eq]
  cases s with
  | mk data =>
    simp only [String.length_mk] at h
    simp [List.take_of_length_le h]

/-- Python's `s[:n]` yields a string of `min n (length s)` characters. -/
theorem string_length_take (s : String) (n : Nat) :
    (s.take n).length = min n s.length := by
  rw [String.take_eq]
  cases s with
  | mk data => simp

/-! ## Dispatcher (`main_async` / `worker`) -/

/-- Python's `str.strip()`: drop leading and trailing whitespace
characters. -/
def pyStrip (s : String) : String :=
  String.mk
    (((s.data.dropWhile Char.isWhitespace).reverse.dropWhile
      Char.isWhitespace).reverse)

/-- The credential-list parse of `main_async`:
`keys = [line.strip() for line in f if line.strip()]`
(strip every line, keep the non-blank ones; a stripped Python string is
truthy exactly when it is non-empty). -/
def parseKeys (lines : List String) : List String :=
  (lines.map pyStrip).filter (fun l => l ≠ "")

/-- The probe performed by the worker of input line `i` (0-based):
`test_key` on that line's credential, with that line's own network
oracle `oracles i`. -/
def probeLine (keys : List String) (oracles : Nat → Nat → AttemptOutcome)
    (i : Nat) : Result :=
  (test_key (keys.getD i "") (oracles i)).result

/-- The shared `results` list after `asyncio.gather`: each worker appends
exactly one result (`results.append(r)`); `order` is the order in which
the workers complete, so the list holds line `i`'s result at the position
of `i` in `order`. -/
def runResults (keys : List String) (oracles : Nat → Nat → AttemptOutcome)
    (order : List Nat) : List Result :=
  order.map (probeLine keys oracles)

/-- Python `set.add`: insert a key if it is not already a member
(the model keeps insertion order; the set itself is order-free). -/
def setInsert (s : List String) (k : String) : List String :=
  if k ∈ s then s else s ++ [k]

/-- The shared `success_set`: each worker runs
`if r["status"] == "valid": success_set.add(key)`, and the key stored in
the result is the probed credential. -/
def successList (results : List Result) : List String :=
  results.foldl
    (fun s r => if r.status = Status.valid then setInsert s r.key else s) []

/-- The `success.txt` write of `main_async`: only `if success_set:`
(non-empty); one line `k + "\n"` per key `k`, in `sorted(success_set)`
order. Returns the file's byte content, or `none` when no file is
written. -/
def writeSuccessFile (s : List String) : Option String :=
  if s = [] then none
  else
    some (String.join ((s.insertionSort (· ≤ ·)).map (fun k => k ++ "\n")))

/-- The terminal summary counters of `main_async`:
`valid = len(success_set)`, `invalid` and `model_not_found` count results
by category, and `error = total - valid - invalid - model_not_found`. -/
structure Summary where
  total : Int
  valid : Int
  invalid : Int
  model_not_found : Int
  error : Int
deriving DecidableEq, Repr

/-- The function `computeSummary keys results s` builds the summary exactly
as the source does, with `total = len(keys)` and `s` the success set. -/
def computeSummary (keys : List String) (results : List Result)
    (s : List String) : Summary :=
  let total : Int := keys.length
  let valid : Int := s.length
  let invalid : Int :=
    (results.filter (fun r => r.status = Status.invalid)).length
  let model_not_found : Int :=
    (results.filter (fun r => r.status = Status.model_not_found)).length
  ⟨total, valid, invalid, model_not_found,
    total - valid - invalid - model_not_found⟩

/-! ## The semaphore-gated dispatcher as a transition system

`worker` wraps its whole probe in `async with semaphore`, where
`semaphore = asyncio.Semaphore(concurrency)`; `main_async` spawns one
worker task per credential.  Each task is therefore in one of three
phases: not yet inside the gated section, inside it (performing its
network attempts), or finished.  A task may enter the gated section only
when fewer than `cap` tasks are inside (the semaphore's counter is
positive); it may leave at any time.  The state is the multiset of task
phases (tasks are symmetric). -/

/-- Phase of one worker task relative to the semaphore-gated section. -/
inductive Phase where
  | pending
  | inside
  | done
deriving DecidableEq, Repr

/-- Dispatcher state: the multiset of the phases of all worker tasks. -/
abbrev DispState : Type := Multiset Phase

/-- One scheduler step of the semaphore-gated dispatcher:
a pending task acquires the semaphore (only when fewer than `cap`
holders exist), or a task inside the gated section releases it. -/
inductive SemStep (cap : Nat) : DispState → DispState → Prop
  | acquire (s : Multiset Phase) (hp : Phase.pending ∈ s)
      (hc : Multiset.count Phase.inside s < cap) :
      SemStep cap s (Phase.inside ::ₘ s.erase Phase.pending)
  | release (s : Multiset Phase) (hi : Phase.inside ∈ s) :
      SemStep cap s (Phase.done ::ₘ s.erase Phase.inside)

/-- Initial dispatcher state: `n` spawned tasks, none having entered the
gated section yet. -/
def dispatchInit (n : Nat) : DispState := Multiset.replicate n Phase.pending

/-! ## Shared invariants of the retry loop -/

/-- The result returned by any run of the retry loop carries the probed
credential as its `key` field. -/
theorem test_key_go_key (key : String) (oracle : Nat → AttemptOutcome) :
    ∀ fuel attempt backoff, MAX_RETRIES - attempt ≤ fuel →
      (test_key_go key oracle attempt backoff).result.key = key := by
  intro fuel
  induction fuel with
  | zero =>
    intro attempt backoff hfuel
    rw [test_key_go.eq_def]
    rcases h : oracle attempt with code | _ | msg | msg <;>
      simp_all <;> split_ifs <;> simp_all <;> omega
  | succ n ih =>
    intro attempt backoff hfuel
    rw [test_key_go.eq_def]
    rcases h : oracle attempt with code | _ | msg | msg <;> simp_all <;>
      split_ifs <;>
        simp_all <;> exact ih (attempt + 1) _ (by omega)

/-- The `key` invariant at the loop entry point. -/
theorem test_key_key (key : String) (oracle : Nat → AttemptOutcome) :
    (test_key key oracle).result.key = key :=
  test_key_go_key key oracle MAX_RETRIES 1 INITIAL_BACKOFF (by omega)

/-- A non-retryable outcome (anything but 429 / timeout / client error)
terminates the loop at the current attempt with no sleep. -/
theorem test_key_go_nonretry (key : String) (oracle : Nat → AttemptOutcome)
    (attempt : Nat) (backoff : ℚ)
    (h : retryable (oracle attempt) = false) :
    (test_key_go key oracle attempt backoff).attempts = 1 ∧
    (test_key_go key oracle attempt backoff).delays = [] := by
  rw [test_key_go.eq_def]
  rcases ho : oracle attempt with ⟨code, body⟩ | _ | msg | msg <;>
    simp_all [retryable] <;> split_ifs <;> simp_all

/-- A retryable outcome before the final attempt sleeps the current
backoff, doubles it, and continues with the next attempt. -/
theorem test_key_go_retry (key : String) (oracle : Nat → AttemptOutcome)
    (attempt : Nat) (backoff : ℚ)
    (h : retryable (oracle attempt) = true) (hlt : attempt < MAX_RETRIES) :
    test_key_go key oracle attempt backoff =
      ⟨(test_key_go key oracle (attempt + 1) (backoff * BACKOFF_FACTOR)).result,
        backoff ::
          (test_key_go key oracle (attempt + 1) (backoff * BACKOFF_FACTOR)).delays,
        (test_key_go key oracle (attempt + 1) (backoff * BACKOFF_FACTOR)).attempts
          + 1⟩ := by
  rw [test_key_go.eq_def]
  rcases ho : oracle attempt with ⟨code, body⟩ | _ | msg | msg <;>
    simp_all [retryable]

/-- At the final attempt (and beyond) the loop never sleeps or retries:
every branch returns at once. -/
theorem test_key_go_exhausted (key : String) (oracle : Nat → AttemptOutcome)
    (attempt : Nat) (backoff : ℚ) (hge : ¬ attempt < MAX_RETRIES) :
    (test_key_go key oracle attempt backoff).attempts = 1 ∧
    (test_key_go key oracle attempt backoff).delays = [] := by
  rw [test_key_go.eq_def]
  rcases ho : oracle attempt with ⟨code, body⟩ | _ | msg | msg <;>
    simp_all <;> split_ifs <;> simp_all
  all_goals omega

/-- Unfolding of the `except Exception` arm: an unexpected failure at any
attempt ends the probe at once with the `-2` sentinel and the
`"Unexpected: "`-prefixed truncated message. -/
theorem test_key_go_unexpected (key : String) (oracle : Nat → AttemptOutcome)
    (attempt : Nat) (backoff : ℚ) (msg : String)
    (hout : oracle attempt = .unexpected msg) :
    test_key_go key oracle attempt backoff =
      ⟨⟨key, Status.error, -2, "Unexpected: " ++ msg.take 300⟩, [], 1⟩ := by
  rw [test_key_go.eq_def, hout]

/-! ## Claims -/

/-- C1: every completed HTTP response is classified into exactly one
category: a status in [200,300) yields `valid` with the fixed literal
`"OK"` (never the body); 401 or 403 yields `invalid` with the body
truncated to 500 characters; 404 yields `model_not_found` with the
truncated body; any other status, except a retryable 429, yields `error`
with the truncated body. -/
theorem classifier_categories (key : String) (oracle : Nat → AttemptOutcome)
    (attempt : Nat) (backoff : ℚ) (code : Nat) (body : String)
    (hout : oracle attempt = .response code body) :
    (200 ≤ code ∧ code < 300 →
      (test_key_go key oracle attempt backoff).result =
        ⟨key, Status.valid, code, "OK"⟩) ∧
    (code = 401 ∨ code = 403 →
      (test_key_go key oracle attempt backoff).result =
        ⟨key, Status.invalid, code, body.take 500⟩) ∧
    (code = 404 →
      (test_key_go key oracle attempt backoff).result =
        ⟨key, Status.model_not_found, code, body.take 500⟩) ∧
    (¬(200 ≤ code ∧ code < 300) → ¬(code = 401 ∨ code = 403) → code ≠ 404 →
      ¬(code = 429 ∧ attempt < MAX_RETRIES) →
      (test_key_go key oracle attempt backoff).result =
        ⟨key, Status.error, code, body.take 500⟩) := by
  refine ⟨fun h2xx => ?_, fun h4x => ?_, fun h404 => ?_,
    fun hn1 hn2 hn3 hn4 => ?_⟩ <;>
    (rw [test_key_go.eq_def, hout]; simp only;
      split_ifs <;> first | rfl | (exfalso; omega))

/-- C1 witness: the four classification branches at concrete codes
204, 403, 404 and 500 on the first attempt. -/
theorem classifier_categories_witness :
    (test_key_go "k" (fun _ => .response 204 "b") 1 INITIAL_BACKOFF).result =
      ⟨"k", Status.valid, 204, "OK"⟩ ∧
    (test_key_go "k" (fun _ => .response 403 "b") 1 INITIAL_BACKOFF).result =
      ⟨"k", Status.invalid, 403, "b".take 500⟩ ∧
    (test_key_go "k" (fun _ => .response 404 "b") 1 INITIAL_BACKOFF).result =
      ⟨"k", Status.model_not_found, 404, "b".take 500⟩ ∧
    (test_key_go "k" (fun _ => .response 500 "b") 1 INITIAL_BACKOFF).result =
      ⟨"k", Status.error, 500, "b".take 500⟩ :=
  ⟨(classifier_categories "k" _ 1 INITIAL_BACKOFF 204 "b" rfl).1 (by omega),
   (classifier_categories "k" _ 1 INITIAL_BACKOFF 403 "b" rfl).2.1
     (Or.inr rfl),
   (classifier_categories "k" _ 1 INITIAL_BACKOFF 404 "b" rfl).2.2.1 rfl,
   (classifier_categories "k" _ 1 INITIAL_BACKOFF 500 "b" rfl).2.2.2
     (by omega) (by omega) (by omega) (by simp [MAX_RETRIES])⟩

/-- C2: every probe makes at most `MAX_RETRIES` (=3) attempts; a retry
happens exactly when the attempt is retryable (429 / timeout / client
error) and the counter has not reached `MAX_RETRIES`; the delays are
`INITIAL_BACKOFF` (=1.0) then `INITIAL_BACKOFF * BACKOFF_FACTOR` (=2.0);
there is no delay after the final attempt (the number of delays is the
number of attempts minus one); a non-retryable first outcome returns
immediately with a single attempt. -/
theorem probe_retry_schedule (key : String) (oracle : Nat → AttemptOutcome) :
    (test_key key oracle).attempts ≤ MAX_RETRIES ∧
    (test_key key oracle).attempts =
      (if retryable (oracle 1) then if retryable (oracle 2) then 3 else 2
        else 1) ∧
    (test_key key oracle).delays =
      (if retryable (oracle 1) then
        if retryable (oracle 2)
          then [INITIAL_BACKOFF, INITIAL_BACKOFF * BACKOFF_FACTOR]
          else [INITIAL_BACKOFF]
        else []) ∧
    (test_key key oracle).delays.length =
      (test_key key oracle).attempts - 1 := by
  rw [test_key]
  cases h1 : retryable (oracle 1) with
  | false =>
    obtain ⟨ha, hd⟩ := test_key_go_nonretry key oracle 1 INITIAL_BACKOFF h1
    simp [ha, hd, MAX_RETRIES]
  | true =>
    rw [test_key_go_retry key oracle 1 INITIAL_BACKOFF h1
      (by simp [MAX_RETRIES])]
    cases h2 : retryable (oracle 2) with
    | false =>
      obtain ⟨ha, hd⟩ :=
        test_key_go_nonretry key oracle 2 (INITIAL_BACKOFF * BACKOFF_FACTOR) h2
      simp [ha, hd, MAX_RETRIES]
    | true =>
      rw [test_key_go_retry key oracle 2 (INITIAL_BACKOFF * BACKOFF_FACTOR) h2
        (by simp [MAX_RETRIES])]
      obtain ⟨ha, hd⟩ := test_key_go_exhausted key oracle 3
        (INITIAL_BACKOFF * BACKOFF_FACTOR * BACKOFF_FACTOR)
        (by simp [MAX_RETRIES])
      simp [ha, hd, MAX_RETRIES]

/-- C4: a credential whose every attempt answers HTTP 429 performs
exactly 3 attempts (= `MAX_RETRIES`, i.e. 2 retries), sleeping 1.0 then
2.0 time units, and ends with category `error`, `http_status` 429, and
detail equal to the last response body truncated to 500 characters. -/
theorem exhausted_429 (key : String) (bodies : Nat → String) :
    test_key key (fun n => .response 429 (bodies n)) =
      ⟨⟨key, Status.error, 429, (bodies 3).take 500⟩, [1, 2], 3⟩ := by
  rw [test_key]
  rw [test_key_go_retry _ _ 1 _ (by simp [retryable]) (by simp [MAX_RETRIES])]
  rw [test_key_go_retry _ _ 2 _ (by simp [retryable]) (by simp [MAX_RETRIES])]
  rw [test_key_go.eq_def]
  norm_num [MAX_RETRIES, INITIAL_BACKOFF, BACKOFF_FACTOR]

/-- C5: a credential whose every attempt times out exhausts the full
retry budget (3 attempts, delays 1.0 and 2.0) and ends as `error` with
detail exactly the literal `"Timeout"` and the `-1` sentinel as
`http_status`. -/
theorem exhausted_timeout (key : String) :
    test_key key (fun _ => .timeout) =
      ⟨⟨key, Status.error, -1, "Timeout"⟩, [1, 2], 3⟩ := by
  rw [test_key]
  rw [test_key_go_retry _ _ 1 _ (by simp [retryable]) (by simp [MAX_RETRIES])]
  rw [test_key_go_retry _ _ 2 _ (by simp [retryable]) (by simp [MAX_RETRIES])]
  rw [test_key_go.eq_def]
  norm_num [MAX_RETRIES, INITIAL_BACKOFF, BACKOFF_FACTOR]

/-- C8: a non-network unexpected exception at any attempt (regardless of
the attempt counter) returns immediately — one attempt, no backoff
sleep — with category `error`, the distinct sentinel `-2`, and a detail
beginning with `"Unexpected: "`. -/
theorem unexpected_immediate (key : String) (oracle : Nat → AttemptOutcome)
    (attempt : Nat) (backoff : ℚ) (msg : String)
    (hout : oracle attempt = .unexpected msg) :
    (test_key_go key oracle attempt backoff).result.status = Status.error ∧
    (test_key_go key oracle attempt backoff).result.http_status = -2 ∧
    (test_key_go key oracle attempt backoff).result.detail =
      "Unexpected: " ++ msg.take 300 ∧
    (test_key_go key oracle attempt backoff).attempts = 1 ∧
    (test_key_go key oracle attempt backoff).delays = [] := by
  rw [test_key_go_unexpected key oracle attempt backoff msg hout]
  exact ⟨rfl, rfl, rfl, rfl, rfl⟩

/-- C8 witness: an unexpected exception at attempt 2 (counter already
advanced) still returns at once with the `-2` sentinel. -/
theorem unexpected_immediate_witness :
    (test_key_go "k" (fun _ => .unexpected "boom") 2
      INITIAL_BACKOFF).result.http_status = -2 ∧
    (test_key_go "k" (fun _ => .unexpected "boom") 2
      INITIAL_BACKOFF).attempts = 1 ∧
    (test_key_go "k" (fun _ => .unexpected "boom") 2
      INITIAL_BACKOFF).delays = [] :=
  ⟨(unexpected_immediate "k" _ 2 INITIAL_BACKOFF "boom" rfl).2.1,
   (unexpected_immediate "k" _ 2 INITIAL_BACKOFF "boom" rfl).2.2.2.1,
   (unexpected_immediate "k" _ 2 INITIAL_BACKOFF "boom" rfl).2.2.2.2⟩

/-- C3: for a run that completes normally there is exactly one result
per input credential line: the results list has one entry per non-blank
stripped line, it is (up to completion order) exactly the family of
per-line probe results — none dropped or duplicated, however many
retries each probe performed — and line `i`'s result carries line `i`'s
credential. -/
theorem one_result_per_line (lines : List String)
    (oracles : Nat → Nat → AttemptOutcome) (order : List Nat)
    (horder : order.Perm (List.range (parseKeys lines).length)) :
    (runResults (parseKeys lines) oracles order).length =
      ((lines.map pyStrip).filter (fun l => l ≠ "")).length ∧
    (runResults (parseKeys lines) oracles order).Perm
      ((List.range (parseKeys lines).length).map
        (probeLine (parseKeys lines) oracles)) ∧
    ∀ i, i < (parseKeys lines).length →
      (probeLine (parseKeys lines) oracles i).key =
        (parseKeys lines).getD i "" := by
  refine ⟨?_, ?_, ?_⟩
  · rw [runResults, List.length_map, horder.length_eq, List.length_range,
      parseKeys]
  · exact horder.map _
  · intro i hi
    rw [probeLine, test_key_key]

/-- C3 witness: three input lines, one blank, probed in completion order
[1, 0]: two results, and line 0's result carries line 0's stripped
credential. -/
theorem one_result_per_line_witness :
    (runResults (parseKeys [" a ", "", "b"]) (fun _ _ => .timeout)
      [1, 0]).length =
      (([" a ", "", "b"].map pyStrip).filter (fun l => l ≠ "")).length ∧
    (probeLine (parseKeys [" a ", "", "b"]) (fun _ _ => .timeout) 0).key =
      (parseKeys [" a ", "", "b"]).getD 0 "" := by
  have h := one_result_per_line [" a ", "", "b"] (fun _ _ => .timeout) [1, 0]
    (by decide)
  exact ⟨h.1, h.2.2 0 (by decide)⟩

/-- C9: in every state reachable by the semaphore-gated dispatcher from
its initial state, the number of tasks inside the gated section
(performing their network attempts) never exceeds the gate capacity. -/
theorem concurrency_ceiling (cap n : Nat) (s : DispState)
    (h : Relation.ReflTransGen (SemStep cap) (dispatchInit n) s) :
    Multiset.count Phase.inside s ≤ cap := by
  induction h with
  | refl => simp [dispatchInit, Multiset.count_replicate]
  | tail hab hstep ih =>
    cases hstep with
    | acquire hp hc =>
      rw [Multiset.count_cons_self,
        Multiset.count_erase_of_ne (by simp)]
      omega
    | release hi =>
      rw [Multiset.count_cons_of_ne (by simp),
        Multiset.count_erase_self]
      omega

/-- C9 witness: with capacity 1 and two tasks, after one task acquires
the gate the inside count is within the ceiling. -/
theorem concurrency_ceiling_witness :
    Multiset.count Phase.inside
      (Phase.inside ::ₘ (dispatchInit 2).erase Phase.pending) ≤ 1 :=
  concurrency_ceiling 1 2 _
    (Relation.ReflTransGen.single
      (SemStep.acquire (dispatchInit 2) (by decide) (by decide)))

/-! ## Detail-length bounds -/

/-- Bound for the success detail literal. -/
theorem detail_ok_le : ("OK" : String).length ≤ 500 := by decide

/-- Bound for the timeout detail literal. -/
theorem detail_timeout_le : ("Timeout" : String).length ≤ 500 := by decide

/-- Bound for a truncated response body. -/
theorem detail_take_le (body : String) : (body.take 500).length ≤ 500 := by
  rw [string_length_take]; omega

/-- Bound for a client-error detail. -/
theorem detail_client_le (msg : String) :
    ("ClientError: " ++ msg.take 300).length ≤ 500 := by
  rw [String.length_append, string_length_take]
  have h13 : ("ClientError: " : String).length = 13 := by decide
  omega

/-- Bound for an unexpected-exception detail. -/
theorem detail_unexpected_le (msg : String) :
    ("Unexpected: " ++ msg.take 300).length ≤ 500 := by
  rw [String.length_append, string_length_take]
  have h12 : ("Unexpected: " : String).length = 12 := by decide
  omega

/-- Every detail stored by the retry loop is at most 500 characters. -/
theorem test_key_go_detail_le (key : String) (oracle : Nat → AttemptOutcome) :
    ∀ fuel attempt backoff, MAX_RETRIES - attempt ≤ fuel →
      (test_key_go key oracle attempt backoff).result.detail.length ≤ 500 := by
  intro fuel
  induction fuel with
  | zero =>
    intro attempt backoff hfuel
    have hge : ¬ attempt < MAX_RETRIES := by omega
    rw [test_key_go.eq_def]
    rcases h : oracle attempt with ⟨code, body⟩ | _ | msg | msg <;> simp only
    · split_ifs with h1 h2 h3 h4 <;> simp only
      · exact detail_ok_le
      · exact detail_take_le body
      · exact detail_take_le body
      · exact absurd h4.2 hge
      · exact detail_take_le body
    · rw [dif_neg hge]
      simp only
      exact detail_timeout_le
    · rw [dif_neg hge]
      simp only
      exact detail_client_le msg
    · exact detail_unexpected_le msg
  | succ n ih =>
    intro attempt backoff hfuel
    rw [test_key_go.eq_def]
    rcases h : oracle attempt with ⟨code, body⟩ | _ | msg | msg <;> simp only
    · split_ifs with h1 h2 h3 h4 <;> simp only
      · exact detail_ok_le
      · exact detail_take_le body
      · exact detail_take_le body
      · exact ih (attempt + 1) (backoff * BACKOFF_FACTOR) (by omega)
      · exact detail_take_le body
    · split_ifs with h1 <;> simp only
      · exact ih (attempt + 1) (backoff * BACKOFF_FACTOR) (by omega)
      · exact detail_timeout_le
    · split_ifs with h1 <;> simp only
      · exact ih (attempt + 1) (backoff * BACKOFF_FACTOR) (by omega)
      · exact detail_client_le msg
    · exact detail_unexpected_le msg

/-- A 501-character exception message, used as concrete long input. -/
def longMsg : String := String.mk (List.replicate 501 'a')

/-- C6 counterexample: an unexpected exception whose text has 501
characters (> 500) is NOT truncated to exactly 500 characters in the
stored detail — the code truncates exception text to 300 characters and
prefixes it, so the detail has 312 characters. -/
theorem detail_truncation_counterexample :
    500 < longMsg.length ∧
    (test_key "k" (fun _ => .unexpected longMsg)).result.detail.length
      ≠ 500 := by
  constructor
  · simp only [longMsg, String.length_mk, List.length_replicate]
    omega
  · rw [test_key, test_key_go_unexpected "k" _ 1 INITIAL_BACKOFF longMsg rfl]
    show ("Unexpected: " ++ longMsg.take 300).length ≠ 500
    rw [String.length_append, string_length_take]
    have h12 : ("Unexpected: " : String).length = 12 := by decide
    simp only [longMsg, String.length_mk, List.length_replicate]
    omega

/-- C6 (amended): every stored detail is at most 500 characters; a
response body longer than 500 characters is truncated to exactly 500
characters (in every non-2xx terminal branch), while exception texts are
truncated to 300 characters and then prefixed with a marker
(`"ClientError: "` / `"Unexpected: "`). -/
theorem detail_truncation (key : String) (oracle : Nat → AttemptOutcome)
    (attempt : Nat) (backoff : ℚ) :
    (test_key_go key oracle attempt backoff).result.detail.length ≤ 500 ∧
    (∀ code body, oracle attempt = .response code body →
      ¬(200 ≤ code ∧ code < 300) → ¬(code = 429 ∧ attempt < MAX_RETRIES) →
      500 < body.length →
      (test_key_go key oracle attempt backoff).result.detail.length = 500) ∧
    (∀ msg, oracle attempt = .clientError msg → ¬ attempt < MAX_RETRIES →
      (test_key_go key oracle attempt backoff).result.detail =
        "ClientError: " ++ msg.take 300) ∧
    (∀ msg, oracle attempt = .unexpected msg →
      (test_key_go key oracle attempt backoff).result.detail =
        "Unexpected: " ++ msg.take 300) := by
  refine ⟨test_key_go_detail_le key oracle MAX_RETRIES attempt backoff
    (by omega), ?_, ?_, ?_⟩
  · intro code body hout hn2xx hn429 hlong
    rw [test_key_go.eq_def, hout]
    simp only
    split_ifs with h1 h2 <;> simp only <;> rw [string_length_take] <;> omega
  · intro msg hout hnlt
    rw [test_key_go.eq_def, hout]
    simp only
    rw [dif_neg hnlt]
  · intro msg hout
    rw [test_key_go.eq_def, hout]

/-- C6 amended witness: a 501-character response body at status 500 is
stored with exactly 500 characters; a client error at the final attempt
stores the prefixed 300-character truncation. -/
theorem detail_truncation_witness :
    (test_key_go "k" (fun _ => .response 500 longMsg) 1
      INITIAL_BACKOFF).result.detail.length = 500 ∧
    (test_key_go "k" (fun _ => .clientError "x") 3
      INITIAL_BACKOFF).result.detail = "ClientError: " ++ "x".take 300 :=
  ⟨(detail_truncation "k" _ 1 INITIAL_BACKOFF).2.1 500 longMsg rfl
    (by decide) (by decide)
    (by simp only [longMsg, String.length_mk, List.length_replicate]; omega),
   (detail_truncation "k" _ 3 INITIAL_BACKOFF).2.2.1 "x" rfl (by decide)⟩

/-! ## Success-set lemmas -/

/-- Membership in a Python-style set insertion. -/
theorem mem_setInsert (s : List String) (k a : String) :
    a ∈ setInsert s k ↔ a ∈ s ∨ a = k := by
  rw [setInsert]
  split_ifs with hk
  · constructor
    · exact fun ha => Or.inl ha
    · rintro (ha | rfl)
      · exact ha
      · exact hk
  · simp

/-- Set insertion preserves the no-duplicates invariant. -/
theorem nodup_setInsert (s : List String) (k : String) (h : s.Nodup) :
    (setInsert s k).Nodup := by
  rw [setInsert]
  split_ifs with hk
  · exact h
  · simp [List.nodup_append, h, hk]

/-- Membership in the success-set fold, for any starting accumulator. -/
theorem mem_successList_aux (results : List Result) :
    ∀ (s : List String) (k : String),
      (k ∈ results.foldl
        (fun s r =>
          if r.status = Status.valid then setInsert s r.key else s) s ↔
        k ∈ s ∨ ∃ r ∈ results, r.status = Status.valid ∧ r.key = k) := by
  induction results with
  | nil => intro s k; simp
  | cons r rs ih =>
    intro s k
    rw [List.foldl_cons]
    split_ifs with hv
    · rw [ih, mem_setInsert]
      constructor
      · rintro ((hs | hk) | hex)
        · exact Or.inl hs
        · exact Or.inr ⟨r, List.mem_cons_self r rs, hv, hk.symm⟩
        · obtain ⟨r', hr', hv', hk'⟩ := hex
          exact Or.inr ⟨r', List.mem_cons_of_mem r hr', hv', hk'⟩
      · rintro (hs | ⟨r', hr', hv', hk'⟩)
        · exact Or.inl (Or.inl hs)
        · rcases List.mem_cons.mp hr' with rfl | hr'
          · exact Or.inl (Or.inr hk'.symm)
          · exact Or.inr ⟨r', hr', hv', hk'⟩
    · rw [ih]
      constructor
      · rintro (hs | ⟨r', hr', hv', hk'⟩)
        · exact Or.inl hs
        · exact Or.inr ⟨r', List.mem_cons_of_mem r hr', hv', hk'⟩
      · rintro (hs | ⟨r', hr', hv', hk'⟩)
        · exact Or.inl hs
        · rcases List.mem_cons.mp hr' with rfl | hr'
          · exact absurd hv' hv
          · exact Or.inr ⟨r', hr', hv', hk'⟩

/-- The success set holds exactly the keys of the `valid` results. -/
theorem mem_successList (results : List Result) (k : String) :
    k ∈ successList results ↔
      ∃ r ∈ results, r.status = Status.valid ∧ r.key = k := by
  rw [successList, mem_successList_aux]
  simp

/-- The success-set fold keeps the accumulator duplicate-free. -/
theorem nodup_successList_aux (results : List Result) :
    ∀ s : List String, s.Nodup →
      (results.foldl
        (fun s r =>
          if r.status = Status.valid then setInsert s r.key else s) s).Nodup := by
  induction results with
  | nil => intro s hs; simpa
  | cons r rs ih =>
    intro s hs
    rw [List.foldl_cons]
    apply ih
    split_ifs with hv
    · exact nodup_setInsert s r.key hs
    · exact hs

/-- The success set never holds a credential twice. -/
theorem nodup_successList (results : List Result) :
    (successList results).Nodup :=
  nodup_successList_aux results [] List.nodup_nil

/-- Runs whose result collections are permutations of each other build
success sets that are permutations of each other. -/
theorem successList_perm (results1 results2 : List Result)
    (h : results1.Perm results2) :
    (successList results1).Perm (successList results2) := by
  rw [List.perm_ext_iff_of_nodup (nodup_successList _) (nodup_successList _)]
  intro a
  rw [mem_successList, mem_successList]
  constructor
  · rintro ⟨r, hr, hv, hk⟩
    exact ⟨r, h.subset hr, hv, hk⟩
  · rintro ⟨r, hr, hv, hk⟩
    exact ⟨r, h.symm.subset hr, hv, hk⟩

/-- The success-file bytes depend only on the success set's membership,
not on the order its elements were inserted. -/
theorem writeSuccessFile_perm (s1 s2 : List String) (hp : s1.Perm s2) :
    writeSuccessFile s1 = writeSuccessFile s2 := by
  have hsort : s1.insertionSort (· ≤ ·) = s2.insertionSort (· ≤ ·) :=
    List.eq_of_perm_of_sorted
      ((List.perm_insertionSort _ s1).trans
        (hp.trans (List.perm_insertionSort _ s2).symm))
      (List.sorted_insertionSort _ s1) (List.sorted_insertionSort _ s2)
  have hlen := hp.length_eq
  by_cases h1 : s1 = []
  · have h2 : s2 = [] := List.length_eq_zero.mp (by rw [← hlen, h1]; rfl)
    rw [h1, h2]
  · have h2 : s2 ≠ [] := by
      intro h
      exact h1 (List.length_eq_zero.mp (by rw [hlen, h]; rfl))
    rw [writeSuccessFile, writeSuccessFile, if_neg h1, if_neg h2, hsort]

/-- C7: the success set holds exactly the credentials having some
`valid` result; the success file is written precisely when that set is
non-empty; its lines are the set sorted lexicographically (one key per
line); and re-running the write step on a run collected in any other
completion order produces byte-identical output. -/
theorem success_set_exact (results results2 : List Result)
    (hperm : results.Perm results2) :
    (∀ k, k ∈ successList results ↔
      ∃ r ∈ results, r.status = Status.valid ∧ r.key = k) ∧
    (writeSuccessFile (successList results) = none ↔
      successList results = []) ∧
    List.Sorted (· ≤ ·) ((successList results).insertionSort (· ≤ ·)) ∧
    ((successList results).insertionSort (· ≤ ·)).Perm
      (successList results) ∧
    writeSuccessFile (successList results) =
      writeSuccessFile (successList results2) := by
  refine ⟨fun k => mem_successList results k, ?_,
    List.sorted_insertionSort _ _, List.perm_insertionSort _ _,
    writeSuccessFile_perm _ _ (successList_perm _ _ hperm)⟩
  rw [writeSuccessFile]
  split_ifs with h
  · simp [h]
  · simp [h]

/-- C7 witness: two completion orders of the same two-result run agree
on membership and produce the same success-file bytes. -/
theorem success_set_exact_witness :
    ("a" ∈ successList [⟨"a", Status.valid, 200, "OK"⟩,
        ⟨"b", Status.invalid, 401, "x"⟩] ↔
      ∃ r ∈ [(⟨"a", Status.valid, 200, "OK"⟩ : Result),
        ⟨"b", Status.invalid, 401, "x"⟩],
          r.status = Status.valid ∧ r.key = "a") ∧
    writeSuccessFile (successList [⟨"a", Status.valid, 200, "OK"⟩,
        ⟨"b", Status.invalid, 401, "x"⟩]) =
      writeSuccessFile (successList [⟨"b", Status.invalid, 401, "x"⟩,
        ⟨"a", Status.valid, 200, "OK"⟩]) := by
  have h := success_set_exact
    [⟨"a", Status.valid, 200, "OK"⟩, ⟨"b", Status.invalid, 401, "x"⟩]
    [⟨"b", Status.invalid, 401, "x"⟩, ⟨"a", Status.valid, 200, "OK"⟩]
    (by decide)
  exact ⟨h.1 "a", h.2.2.2.2⟩

/-! ## Summary-counter lemmas -/

/-- A list with a duplicate strictly shrinks under deduplication. -/
theorem dedup_length_lt (keys : List String) (h : ¬ keys.Nodup) :
    keys.dedup.length < keys.length := by
  rcases Nat.lt_or_ge keys.dedup.length keys.length with hlt | hge
  · exact hlt
  · exfalso
    have hsub := List.dedup_sublist keys
    have heq : keys.dedup = keys :=
      hsub.eq_of_length (le_antisymm hsub.length_le hge)
    exact h (heq ▸ List.nodup_dedup keys)

/-- Every list of results splits exactly into the four status classes. -/
theorem status_partition (results : List Result) :
    (results.filter (fun r => r.status = Status.valid)).length +
      (results.filter (fun r => r.status = Status.invalid)).length +
      (results.filter (fun r => r.status = Status.model_not_found)).length +
      (results.filter (fun r => r.status = Status.error)).length =
      results.length := by
  induction results with
  | nil => rfl
  | cons r rs ih =>
    cases hs : r.status <;> simp [List.filter_cons, hs] <;> omega

/-- When every result carrying the key `k` is `valid`, restricting to the
`valid` results loses no occurrence of `k`. -/
theorem count_key_filter_valid (results : List Result) (k : String)
    (hkvalid : ∀ r ∈ results, r.key = k → r.status = Status.valid) :
    ((results.filter
      (fun r => r.status = Status.valid)).map Result.key).count k =
      (results.map Result.key).count k := by
  induction results with
  | nil => rfl
  | cons r rs ih =>
    have ih' := ih (fun r' hr' => hkvalid r' (List.mem_cons_of_mem r hr'))
    by_cases hv : r.status = Status.valid
    · rw [List.filter_cons_of_pos (by simp [hv]), List.map_cons,
        List.map_cons]
      by_cases hk : r.key = k
      · rw [hk, List.count_cons_self, List.count_cons_self, ih']
      · rw [List.count_cons_of_ne (fun h => hk h.symm),
          List.count_cons_of_ne (fun h => hk h.symm), ih']
    · have hk : r.key ≠ k :=
        fun h => hv (hkvalid r (List.mem_cons_self r rs) h)
      rw [List.filter_cons_of_neg (by simp [hv]), List.map_cons,
        List.count_cons_of_ne (fun h => hk h.symm), ih']

/-- C10: for every run, the summary counts `valid` as the cardinality of
the (duplicate-free) success set — not as the number of `valid`
results — and computes the other-error count as total minus valid minus
invalid minus model-not-found (first two conjuncts, over arbitrary
runs); consequently, in any run over input lines `keys` (results in any
completion order) where some credential `k` occupies more than one input
line and every probe of `k` is `valid`, the reported valid count is
strictly less than the number of `valid` results and the reported
other-error count strictly exceeds the number of `error` results. -/
theorem summary_counts (keys : List String) (results : List Result)
    (k : String)
    (hkeys : (results.map Result.key).Perm keys)
    (hdup : 1 < keys.count k)
    (hkvalid : ∀ r ∈ results, r.key = k → r.status = Status.valid) :
    (∀ (ks : List String) (rs : List Result),
      (successList rs).Nodup ∧
      (computeSummary ks rs (successList rs)).valid =
        ((successList rs).length : Int)) ∧
    (∀ (ks : List String) (rs : List Result),
      (computeSummary ks rs (successList rs)).error =
        (computeSummary ks rs (successList rs)).total -
          (computeSummary ks rs (successList rs)).valid -
          (computeSummary ks rs (successList rs)).invalid -
          (computeSummary ks rs (successList rs)).model_not_found) ∧
    (computeSummary keys results (successList results)).valid <
      ((results.filter (fun r => r.status = Status.valid)).length : Int) ∧
    ((results.filter (fun r => r.status = Status.error)).length : Int) <
      (computeSummary keys results (successList results)).error := by
  have hmemv : ∀ k', k' ∈ successList results ↔
      k' ∈ (results.filter
        (fun r => r.status = Status.valid)).map Result.key := by
    intro k'
    rw [mem_successList]
    simp only [List.mem_map, List.mem_filter, decide_eq_true_eq]
    constructor
    · rintro ⟨r, hr, hv, hk'⟩
      exact ⟨r, ⟨hr, hv⟩, hk'⟩
    · rintro ⟨r, ⟨hr, hv⟩, hk'⟩
      exact ⟨r, hr, hv, hk'⟩
  have hperm2 : (successList results).Perm
      ((results.filter (fun r => r.status = Status.valid)).map
        Result.key).dedup := by
    rw [List.perm_ext_iff_of_nodup (nodup_successList _)
      (List.nodup_dedup _)]
    intro a
    rw [hmemv a, List.mem_dedup]
  have hcount : 2 ≤ ((results.filter
      (fun r => r.status = Status.valid)).map Result.key).count k := by
    rw [count_key_filter_valid results k hkvalid, hkeys.count_eq k]
    omega
  have hnd : ¬ ((results.filter (fun r => r.status = Status.valid)).map
      Result.key).Nodup := by
    intro hnd
    have := List.nodup_iff_count_le_one.mp hnd k
    omega
  have hlt : (successList results).length <
      (results.filter (fun r => r.status = Status.valid)).length := by
    have h1 := hperm2.length_eq
    have h2 := dedup_length_lt _ hnd
    rw [List.length_map] at h2
    omega
  have htotal : results.length = keys.length := by
    rw [← hkeys.length_eq, List.length_map]
  have hpart := status_partition results
  refine ⟨fun ks rs => ⟨nodup_successList rs, rfl⟩, fun ks rs => rfl,
    ?_, ?_⟩
  · simp only [computeSummary]
    omega
  · simp only [computeSummary]
    omega

/-- C10 witness: a mixed run — the credential "a" on two input lines and
probing valid both times, "b" probing invalid, results collected out of
input order — where the reported valid count (1) is below the two valid
results and the reported other-error count (1) is above the zero error
results. -/
theorem summary_counts_witness :
    (computeSummary ["a", "a", "b"]
      [⟨"b", Status.invalid, 401, "x"⟩, ⟨"a", Status.valid, 200, "OK"⟩,
        ⟨"a", Status.valid, 200, "OK"⟩]
      (successList [⟨"b", Status.invalid, 401, "x"⟩,
        ⟨"a", Status.valid, 200, "OK"⟩,
        ⟨"a", Status.valid, 200, "OK"⟩])).valid <
      ((([(⟨"b", Status.invalid, 401, "x"⟩ : Result),
        ⟨"a", Status.valid, 200, "OK"⟩,
        ⟨"a", Status.valid, 200, "OK"⟩]).filter
          (fun r => r.status = Status.valid)).length : Int) ∧
    ((([(⟨"b", Status.invalid, 401, "x"⟩ : Result),
        ⟨"a", Status.valid, 200, "OK"⟩,
        ⟨"a", Status.valid, 200, "OK"⟩]).filter
          (fun r => r.status = Status.error)).length : Int) <
      (computeSummary ["a", "a", "b"]
        [⟨"b", Status.invalid, 401, "x"⟩, ⟨"a", Status.valid, 200, "OK"⟩,
          ⟨"a", Status.valid, 200, "OK"⟩]
        (successList [⟨"b", Status.invalid, 401, "x"⟩,
          ⟨"a", Status.valid, 200, "OK"⟩,
          ⟨"a", Status.valid, 200, "OK"⟩])).error := by
  have h := summary_counts ["a", "a", "b"]
    [⟨"b", Status.invalid, 401, "x"⟩, ⟨"a", Status.valid, 200, "OK"⟩,
      ⟨"a", Status.valid, 200, "OK"⟩] "a"
    (by decide) (by decide) (by decide)
  exact ⟨h.2.2.1, h.2.2.2⟩
